import Mathlib

/-!
Shallow embedding of the gem5 Vega VOP3P packed-instruction semantics from
`src/arch/amdgpu/vega/insts/vop3p.cc`, together with theorems settling the
specification claims about it.

Conventions of the embedding:
* C `uint32_t` lane values and unsigned sub-elements are `Nat`, with an
  explicit `% 2 ^ 32` (resp. `% 2 ^ w`) wherever the C arithmetic wraps.
* C `int32_t` / `int16_t` values are `Int`; a cast to a narrower signed type
  is `sextI w` (truncate to the low `w` bits of the two's-complement pattern
  and sign-extend), and `int32_t` wrap-around is `wrap32`.
* The floating-point instructions (which defer to the borrowed `fplib`
  engine) are outside the claims and are not embedded; the lane-wise and
  dot-product drivers are quantified over an arbitrary element operation, so
  theorems about the drivers cover those instructions as well.
-/

namespace VegaISA

/-- `mask(N)` from gem5 `base/bitfield.hh`: a mask of the `N` low-order bits. -/
def mask (n : Nat) : Nat := 2 ^ n - 1

/-- `bits(val, first, last)` from gem5 `base/bitfield.hh`: the bit field of
`val` from bit `first` down to bit `last`, i.e. `(val >> last) & mask(first - last + 1)`. -/
def bits (val first last : Nat) : Nat := val / 2 ^ last % 2 ^ (first - last + 1)

/-- Sign extension of the low `n` bits of a two's-complement pattern, as an
integer value: gem5 `sext<N>` and also the C cast to an `n`-bit signed type. -/
def sextI (n : Nat) (v : Int) : Int :=
  if v % (2 ^ n : Int) < 2 ^ (n - 1) then v % 2 ^ n else v % 2 ^ n - 2 ^ n

/-- The C conversion of a (possibly negative) integer to `uint32_t`:
the two's-complement bit pattern of the value, modulo `2 ^ 32`. -/
def toUInt32 (v : Int) : Nat := (v % (2 ^ 32 : Int)).toNat

/-- The C conversion of an integer to `uint16_t`. -/
def toUInt16 (v : Int) : Nat := (v % (2 ^ 16 : Int)).toNat

/-- The C reinterpretation of a 32-bit pattern as `int32_t`. -/
def toInt32 (x : Nat) : Int := sextI 32 x

/-- C `int32_t` wrap-around: the result of an `int32_t` arithmetic operation
whose mathematical value is `v`. -/
def wrap32 (v : Int) : Int := sextI 32 v

/-- `dotClampI<N>` (vop3p.cc:45-59): if `clamp` is unset return the `int32_t`
value unchanged, else `std::clamp<int32_t>(value, -(1 << (N-1)), (1 << (N-1)) - 1)`. -/
def dotClampI (N : Nat) (value : Int) (clamp : Bool) : Int :=
  if !clamp then value
  else if value < -(2 ^ (N - 1) : Int) then -(2 ^ (N - 1))
  else if (2 ^ (N - 1) : Int) - 1 < value then 2 ^ (N - 1) - 1
  else value

/-- `dotClampU<N>` (vop3p.cc:61-75). Faithful to the code, not to its
evident intent: the source instantiates `std::clamp<int32_t>` (not
`uint32_t`), so the `uint32_t` argument and the bounds `0` and `(1 << N) - 1`
are compared as signed `int32_t`, and the unset-`clamp` branch returns
`static_cast<int32_t>(value)` (an identity round trip on the bit pattern). -/
def dotClampU (N : Nat) (value : Nat) (clamp : Bool) : Nat :=
  if !clamp then toUInt32 (toInt32 value)
  else
    toUInt32 (if toInt32 value < 0 then 0
      else if (2 ^ N : Int) - 1 < toInt32 value then 2 ^ N - 1
      else toInt32 value)

/-- `clampI16` (vop3p.cc:77-87): on unset `clamp` truncate the `int32_t` to
`int16_t`; otherwise `std::clamp` into `[-32768, 32767]`. -/
def clampI16 (value : Int) (clamp : Bool) : Int :=
  if !clamp then sextI 16 value
  else if value < -32768 then -32768
  else if 32767 < value then 32767
  else value

/-- `clampU16` (vop3p.cc:89-99): on unset `clamp` truncate the `uint32_t` to
`uint16_t`; otherwise `std::clamp` into `[0, 65535]` (the lower bound is a
no-op on an unsigned value). -/
def clampU16 (value : Nat) (clamp : Bool) : Nat :=
  if !clamp then value % 2 ^ 16
  else if 65535 < value then 65535
  else value

/-- Modelled from the spec: `clampUnsignedInt<N>` (spec §4.1), the intended
behaviour of the width-`N` unsigned saturation primitive — wrap to `N` bits
when not saturating, clamp into `[0, 2^N - 1]` when saturating.  It is stated
here only to compare with `dotClampU`, which the source actually provides. -/
def clampUnsignedInt (N : Nat) (value : Nat) (saturate : Bool) : Nat :=
  if !saturate then value % 2 ^ N
  else if 2 ^ N - 1 < value then 2 ^ N - 1
  else value

/-- `opImpl` of `Inst_VOP3P__V_PK_MAD_I16::execute` (vop3p.cc:132-141). -/
def V_PK_MAD_I16_opImpl (S0 S1 S2 : Int) (clamp : Bool) : Int :=
  clampI16 (S0 * S1 + S2) clamp

/-- `opImpl` of `Inst_VOP3P__V_PK_MUL_LO_U16::execute` (vop3p.cc:143-155):
`D = S0 * S1` as `uint32_t`, then only the low 16 bits `Dh` are returned;
the unnamed `bool` saturation parameter is ignored. -/
def V_PK_MUL_LO_U16_opImpl (S0 S1 : Nat) (_ : Bool) : Nat :=
  S0 * S1 % 2 ^ 32 % 2 ^ 16

/-- `opImpl` of `Inst_VOP3P__V_PK_ADD_I16::execute` (vop3p.cc:157-165). -/
def V_PK_ADD_I16_opImpl (S0 S1 : Int) (clamp : Bool) : Int :=
  clampI16 (S0 + S1) clamp

/-- `opImpl` of `Inst_VOP3P__V_PK_SUB_I16::execute` (vop3p.cc:167-175). -/
def V_PK_SUB_I16_opImpl (S0 S1 : Int) (clamp : Bool) : Int :=
  clampI16 (S0 - S1) clamp

/-- `opImpl` of `Inst_VOP3P__V_PK_LSHLREV_B16::execute` (vop3p.cc:177-188):
`S1 << bits(S0, 3, 0)`, truncated to `uint16_t` by the return conversion. -/
def V_PK_LSHLREV_B16_opImpl (S0 S1 : Nat) (_ : Bool) : Nat :=
  S1 * 2 ^ bits S0 3 0 % 2 ^ 16

/-- `opImpl` of `Inst_VOP3P__V_PK_LSHRREV_B16::execute` (vop3p.cc:190-200). -/
def V_PK_LSHRREV_B16_opImpl (S0 S1 : Nat) (_ : Bool) : Nat :=
  S1 / 2 ^ bits S0 3 0 % 2 ^ 16

/-- `opImpl` of `Inst_VOP3P__V_PK_ASHRREV_B16::execute` (vop3p.cc:202-215):
`S1` is sign extended to `int32_t` (`S1e`), arithmetically shifted right by
`bits(S0, 3, 0)` (on a C `int32_t` this is floor division by the power of
two), and truncated back to `int16_t` by the return conversion; the `clamp`
parameter is not used. -/
def V_PK_ASHRREV_B16_opImpl (S0 S1 : Int) (clamp : Bool) : Int :=
  sextI 16 (Int.fdiv S1 (2 ^ bits (toUInt16 S0) 3 0))

/-- `opImpl` of `Inst_VOP3P__V_PK_MAX_I16::execute` (vop3p.cc:217-225). -/
def V_PK_MAX_I16_opImpl (S0 S1 : Int) (clamp : Bool) : Int :=
  clampI16 (if S0 ≥ S1 then S0 else S1) clamp

/-- `opImpl` of `Inst_VOP3P__V_PK_MIN_I16::execute` (vop3p.cc:227-235). -/
def V_PK_MIN_I16_opImpl (S0 S1 : Int) (clamp : Bool) : Int :=
  clampI16 (if S0 < S1 then S0 else S1) clamp

/-- `opImpl` of `Inst_VOP3P__V_PK_MAD_U16::execute` (vop3p.cc:237-246);
the `uint16_t` inputs keep `S0 * S1 + S2` below `2 ^ 32`. -/
def V_PK_MAD_U16_opImpl (S0 S1 S2 : Nat) (clamp : Bool) : Nat :=
  clampU16 (S0 * S1 + S2) clamp

/-- `opImpl` of `Inst_VOP3P__V_PK_ADD_U16::execute` (vop3p.cc:248-256). -/
def V_PK_ADD_U16_opImpl (S0 S1 : Nat) (clamp : Bool) : Nat :=
  clampU16 (S0 + S1) clamp

/-- `opImpl` of `Inst_VOP3P__V_PK_SUB_U16::execute` (vop3p.cc:258-266):
the promoted `int` difference is converted back to `uint32_t` (wrapping)
before the clamp. -/
def V_PK_SUB_U16_opImpl (S0 S1 : Nat) (clamp : Bool) : Nat :=
  clampU16 (toUInt32 ((S0 : Int) - S1)) clamp

/-- `opImpl` of `Inst_VOP3P__V_PK_MAX_U16::execute` (vop3p.cc:268-276). -/
def V_PK_MAX_U16_opImpl (S0 S1 : Nat) (clamp : Bool) : Nat :=
  clampU16 (if S0 ≥ S1 then S0 else S1) clamp

/-- `opImpl` of `Inst_VOP3P__V_PK_MIN_U16::execute` (vop3p.cc:278-286). -/
def V_PK_MIN_U16_opImpl (S0 S1 : Nat) (clamp : Bool) : Nat :=
  clampU16 (if S0 < S1 then S0 else S1) clamp

/-- One iteration of the element loop of the signed dot products
(vop3p.cc:405-409, 476-480, 547-551 with `INBITS = n`):
`C[i] = sext<INBITS>(S0[i]) * sext<INBITS>(S1[i])` followed by
`C[i] = sext<INBITS>(dotClampI<INBITS>(C[i], clamp) & mask(INBITS))`
(the `& mask(INBITS)` keeps the low `n` bits of the pattern, embedded as
`% 2 ^ n` on the `uint32_t` pattern). -/
def dotElemI (n S0r S1r : Nat) (clamp : Bool) (i : Nat) : Int :=
  sextI n (Int.ofNat (toUInt32 (dotClampI n
    (sextI n (Int.ofNat (bits S0r (i * n + n - 1) (i * n))) *
      sextI n (Int.ofNat (bits S1r (i * n + n - 1) (i * n)))) clamp) % 2 ^ n))

/-- One iteration of the element loop of the unsigned dot products
(vop3p.cc:440-444, 511-515, 582-586 with `INBITS = n`):
`C[i] = S0[i] * S1[i]` in `uint32_t` arithmetic, then
`C[i] = dotClampU<INBITS>(C[i], clamp)`. -/
def dotElemU (n S0r S1r : Nat) (clamp : Bool) (i : Nat) : Nat :=
  dotClampU n (bits S0r (i * n + n - 1) (i * n) * bits S1r (i * n + n - 1) (i * n) % 2 ^ 32) clamp

/-- `opImpl` of `Inst_VOP3P__V_DOT2_I32_I16::execute` (vop3p.cc:383-418):
the clamped element products are accumulated into the `int32_t` `Csum`
(wrapping), `S2` is added, and the bit pattern is returned. -/
def V_DOT2_I32_I16_opImpl (S0r S1r S2r : Nat) (clamp : Bool) : Nat :=
  toUInt32 (wrap32 ((List.range (32 / 16)).foldl
    (fun Csum i => wrap32 (Csum + dotElemI 16 S0r S1r clamp i)) 0 + toInt32 S2r))

/-- `opImpl` of `Inst_VOP3P__V_DOT2_U32_U16::execute` (vop3p.cc:420-452). -/
def V_DOT2_U32_U16_opImpl (S0r S1r S2 : Nat) (clamp : Bool) : Nat :=
  ((List.range (32 / 16)).foldl
    (fun Csum i => (Csum + dotElemU 16 S0r S1r clamp i) % 2 ^ 32) 0 + S2) % 2 ^ 32

/-- `opImpl` of `Inst_VOP3P__V_DOT4_I32_I8::execute` (vop3p.cc:454-489). -/
def V_DOT4_I32_I8_opImpl (S0r S1r S2r : Nat) (clamp : Bool) : Nat :=
  toUInt32 (wrap32 ((List.range (32 / 8)).foldl
    (fun Csum i => wrap32 (Csum + dotElemI 8 S0r S1r clamp i)) 0 + toInt32 S2r))

/-- `opImpl` of `Inst_VOP3P__V_DOT4_U32_U8::execute` (vop3p.cc:491-523). -/
def V_DOT4_U32_U8_opImpl (S0r S1r S2 : Nat) (clamp : Bool) : Nat :=
  ((List.range (32 / 8)).foldl
    (fun Csum i => (Csum + dotElemU 8 S0r S1r clamp i) % 2 ^ 32) 0 + S2) % 2 ^ 32

/-- `opImpl` of `Inst_VOP3P__V_DOT8_I32_I4::execute` (vop3p.cc:525-560). -/
def V_DOT8_I32_I4_opImpl (S0r S1r S2r : Nat) (clamp : Bool) : Nat :=
  toUInt32 (wrap32 ((List.range (32 / 4)).foldl
    (fun Csum i => wrap32 (Csum + dotElemI 4 S0r S1r clamp i)) 0 + toInt32 S2r))

/-- `opImpl` of `Inst_VOP3P__V_DOT8_U32_U4::execute` (vop3p.cc:562-594). -/
def V_DOT8_U32_U4_opImpl (S0r S1r S2 : Nat) (clamp : Bool) : Nat :=
  ((List.range (32 / 4)).foldl
    (fun Csum i => (Csum + dotElemU 4 S0r S1r clamp i) % 2 ^ 32) 0 + S2) % 2 ^ 32

/-- Number of lanes of a Vega vector register (the wavefront size). -/
abbrev NumVecElemPerVecReg : Nat := 64

/-- The lane contents of one vector register: a 32-bit pattern per lane. -/
abbrev Lanes := Fin NumVecElemPerVecReg → Nat

/-- The per-lane execution mask of a wavefront. -/
abbrev ExecMask := Fin NumVecElemPerVecReg → Bool

/-- `splitElements` — spec §4.2: element `i` of a lane occupies the bits
from `i*w` to `i*w + w - 1`, element 0 being the low-order field. -/
def splitElements (lane w : Nat) : List Nat :=
  (List.range (32 / w)).map fun i => lane / 2 ^ (i * w) % 2 ^ w

/-- `joinElements` — spec §4.2: the inverse packing; each element's low `w`
bits are placed at its slot. -/
def joinElements (elems : List Nat) (w : Nat) : Nat :=
  elems.foldr (fun e acc => e % 2 ^ w + acc * 2 ^ w) 0

/-- Modelled from the spec: `vop3pHelper` (two-operand form) is declared in
`vop3p.hh`, which is not part of this tree; per spec §4.4 it splits the
operands of every lane whose execution-mask bit is true into 16-bit elements,
applies the element operation, joins the results into the destination lane,
and leaves every lane whose mask bit is false unmodified. -/
def vop3pHelper (op : Nat → Nat → Bool → Nat) (clamp : Bool)
    (execMask : ExecMask) (s0 s1 vdst : Lanes) : Lanes :=
  fun lane =>
    if execMask lane then
      joinElements (List.zipWith (fun a b => op a b clamp)
        (splitElements (s0 lane) 16) (splitElements (s1 lane) 16)) 16
    else vdst lane

/-- Modelled from the spec: `vop3pHelper` (three-operand form, used by the
MAD/FMA instructions), as for the two-operand form. -/
def vop3pHelper3 (op : Nat → Nat → Nat → Bool → Nat) (clamp : Bool)
    (execMask : ExecMask) (s0 s1 s2 vdst : Lanes) : Lanes :=
  fun lane =>
    if execMask lane then
      joinElements (List.zipWith (fun a bc => op a bc.1 bc.2 clamp)
        (splitElements (s0 lane) 16)
        ((splitElements (s1 lane) 16).zip (splitElements (s2 lane) 16))) 16
    else vdst lane

/-- Modelled from the spec: `dotHelper` is declared in `vop3p.hh`, which is
not part of this tree; per spec §4.5 it applies the whole-lane dot-product
operation to every lane whose execution-mask bit is true and leaves every
lane whose mask bit is false unmodified. -/
def dotHelper (op : Nat → Nat → Nat → Bool → Nat) (clamp : Bool)
    (execMask : ExecMask) (s0 s1 s2 vdst : Lanes) : Lanes :=
  fun lane => if execMask lane then op (s0 lane) (s1 lane) (s2 lane) clamp else vdst lane

/-- `Inst_VOP3P__V_ACCVGPR_READ::execute` (vop3p.cc:596-613): a per-lane move
of `src` into `vdst` for the lanes with a true execution-mask bit; lanes that
the loop does not assign keep the previous destination register content. -/
def Inst_VOP3P__V_ACCVGPR_READ_execute (execMask : ExecMask) (src vdst : Lanes) : Lanes :=
  fun lane => if execMask lane then src lane else vdst lane

/-- `Inst_VOP3P__V_ACCVGPR_WRITE::execute` (vop3p.cc:615-632): the same
per-lane move as `Inst_VOP3P__V_ACCVGPR_READ::execute`. -/
def Inst_VOP3P__V_ACCVGPR_WRITE_execute (execMask : ExecMask) (src vdst : Lanes) : Lanes :=
  fun lane => if execMask lane then src lane else vdst lane

/-- Adapter packing a signed 16-bit element operation onto raw 16-bit element
patterns, as the drivers consume them. -/
def opImplOnBitsI16 (op : Int → Int → Bool → Int) : Nat → Nat → Bool → Nat :=
  fun a b c => toUInt16 (op (sextI 16 (Int.ofNat a)) (sextI 16 (Int.ofNat b)) c)

/-- `Inst_VOP3P__V_PK_ADD_I16::execute` as a whole-wavefront function. -/
def Inst_VOP3P__V_PK_ADD_I16_execute (clamp : Bool) (execMask : ExecMask)
    (s0 s1 vdst : Lanes) : Lanes :=
  vop3pHelper (opImplOnBitsI16 V_PK_ADD_I16_opImpl) clamp execMask s0 s1 vdst

/-- `Inst_VOP3P__V_DOT2_U32_U16::execute` as a whole-wavefront function. -/
def Inst_VOP3P__V_DOT2_U32_U16_execute (clamp : Bool) (execMask : ExecMask)
    (s0 s1 s2 vdst : Lanes) : Lanes :=
  dotHelper V_DOT2_U32_U16_opImpl clamp execMask s0 s1 s2 vdst

/-- `Inst_VOP3P__V_DOT4_I32_I8::execute` as a whole-wavefront function. -/
def Inst_VOP3P__V_DOT4_I32_I8_execute (clamp : Bool) (execMask : ExecMask)
    (s0 s1 s2 vdst : Lanes) : Lanes :=
  dotHelper V_DOT4_I32_I8_opImpl clamp execMask s0 s1 s2 vdst

/-- The value of `sextI n v` is congruent to `v` modulo `2 ^ n`. -/
theorem sextI_emod (n : Nat) (a : Int) : sextI n a % (2 ^ n : Int) = a % 2 ^ n := by
  unfold sextI
  split
  · exact Int.emod_emod_of_dvd a dvd_rfl
  · rw [Int.sub_emod, Int.emod_self, sub_zero,
      Int.emod_emod_of_dvd (a % 2 ^ n) dvd_rfl, Int.emod_emod_of_dvd a dvd_rfl]

/-- `sextI n` only depends on its argument modulo `2 ^ n`. -/
theorem sextI_congr (n : Nat) {a b : Int} (h : a % (2 ^ n : Int) = b % 2 ^ n) :
    sextI n a = sextI n b := by
  unfold sextI
  rw [h]

/-- The result of `sextI n` lies in the `n`-bit signed range. -/
theorem sextI_bounds (n : Nat) (hn : 1 ≤ n) (a : Int) :
    -(2 ^ (n - 1) : Int) ≤ sextI n a ∧ sextI n a ≤ 2 ^ (n - 1) - 1 := by
  have hpow : ((2 : Int) ^ n) = 2 ^ (n - 1) * 2 := by
    conv_lhs => rw [show n = (n - 1) + 1 from by omega]
    rw [pow_succ]
  have hk : (0 : Int) < 2 ^ (n - 1) := by positivity
  have hy0 : 0 ≤ a % (2 : Int) ^ n := Int.emod_nonneg a (by positivity)
  have hy1 : a % (2 : Int) ^ n < 2 ^ n := Int.emod_lt_of_pos a (by positivity)
  unfold sextI
  split <;> constructor <;> omega

/-- The clamped element products of the signed dot families lie in the
`n`-bit signed range, whatever the inputs and the saturation flag. -/
theorem dotElemI_bounds (n : Nat) (hn : 1 ≤ n) (S0r S1r : Nat) (clamp : Bool) (i : Nat) :
    -(2 ^ (n - 1) : Int) ≤ dotElemI n S0r S1r clamp i ∧
      dotElemI n S0r S1r clamp i ≤ 2 ^ (n - 1) - 1 := by
  unfold dotElemI
  exact sextI_bounds n hn _

/-- Int32 wrap-around can be dropped from the left addend under an outer
wrap-around. -/
theorem wrap32_add_left (a b : Int) : wrap32 (wrap32 a + b) = wrap32 (a + b) := by
  unfold wrap32
  exact sextI_congr 32 (by rw [Int.add_emod, sextI_emod, ← Int.add_emod])

/-- Converting to a `uint32_t` pattern ignores an inner int32 wrap-around. -/
theorem toUInt32_wrap32 (a : Int) : toUInt32 (wrap32 a) = toUInt32 a := by
  unfold toUInt32 wrap32
  rw [sextI_emod]

/-- A left fold that wraps each partial sum to int32 computes the wrap of the
plain sum. -/
theorem foldl_wrap32_add (f : Nat → Int) (l : List Nat) (a : Int) :
    l.foldl (fun acc i => wrap32 (acc + f i)) (wrap32 a) = wrap32 (a + (l.map f).sum) := by
  induction l generalizing a with
  | nil => simp
  | cons i t ih =>
      simp only [List.foldl_cons, List.map_cons, List.sum_cons]
      rw [wrap32_add_left, ih (a + f i), Int.add_assoc]

/-- `foldl_wrap32_add` started from the accumulator value `0`. -/
theorem foldl_wrap32_add_zero (f : Nat → Int) (l : List Nat) :
    l.foldl (fun acc i => wrap32 (acc + f i)) 0 = wrap32 ((l.map f).sum) := by
  have h := foldl_wrap32_add f l 0
  rw [show wrap32 0 = 0 from by decide, zero_add] at h
  exact h

/-- A left fold that reduces each partial sum modulo `m` computes the plain
sum modulo `m`. -/
theorem foldl_mod_add (m : Nat) (f : Nat → Nat) (l : List Nat) (a : Nat) :
    l.foldl (fun acc i => (acc + f i) % m) (a % m) = (a + (l.map f).sum) % m := by
  induction l generalizing a with
  | nil => simp
  | cons i t ih =>
      simp only [List.foldl_cons, List.map_cons, List.sum_cons]
      rw [Nat.mod_add_mod, ih (a + f i), Nat.add_assoc]

/-- `foldl_mod_add` started from the accumulator value `0`. -/
theorem foldl_mod_add_zero (m : Nat) (f : Nat → Nat) (l : List Nat) :
    l.foldl (fun acc i => (acc + f i) % m) 0 = (l.map f).sum % m := by
  have h := foldl_mod_add m f l 0
  rwa [Nat.zero_mod, zero_add] at h

/-- C1: contrary to the claim, `V_DOT2_U32_U16` with both sources packing
the elements 0xFFFF, 0xFFFF, accumulator 0 and the saturation flag set does
not clamp each raw product 0xFFFE0001 to 0xFFFF: `dotClampU<16>` compares
through `std::clamp<int32_t>`, which reads the pattern 0xFFFE0001 as the
negative `int32_t` -131071 and clamps it to the lower bound 0, so the lane
result is 0 instead of 0x1FFFE.  The intended unsigned clamp of spec §4.1
(`clampUnsignedInt`) would give 0xFFFF per element, as the claim states. -/
theorem dot2_u32_u16_unsigned_clamp_bug :
    dotClampU 16 0xFFFE0001 true = 0 ∧
    clampUnsignedInt 16 0xFFFE0001 true = 0xFFFF ∧
    V_DOT2_U32_U16_opImpl 0xFFFFFFFF 0xFFFFFFFF 0 true = 0 := by decide

/-- C2 counterexample: with the saturation flag unset, `dotClampI<16>` does
not wrap to 16 bits — on 65536 it returns 65536 unchanged, while the claimed
truncation to 16 bits sign-extended back yields 0. -/
theorem dotClampI_wrap_law_cex : ¬ dotClampI 16 65536 false = sextI 16 65536 := by decide

/-- C2 (amended): for N in 4, 8, 16 and any `int32_t` value `v`,
`dotClampI<N>(v, false)` returns `v` unchanged (the wrap to N bits is applied
by the dot-product callers, outside `dotClampI`), while `clampI16(v, false)`
does truncate to 16 bits; with the flag set, both `dotClampI<N>` and
`clampI16` land in the N-bit (resp. 16-bit) signed range and are the
identity on values already in range. -/
theorem signed_clamp_spec (N : Nat) (hN : N = 4 ∨ N = 8 ∨ N = 16) (v : Int)
    (hv : -(2 ^ 31) ≤ v ∧ v < 2 ^ 31) :
    dotClampI N v false = v ∧
    clampI16 v false = sextI 16 v ∧
    -(2 ^ (N - 1) : Int) ≤ dotClampI N v true ∧
    dotClampI N v true ≤ 2 ^ (N - 1) - 1 ∧
    -32768 ≤ clampI16 v true ∧
    clampI16 v true ≤ 32767 ∧
    (-(2 ^ (N - 1) : Int) ≤ v → v ≤ 2 ^ (N - 1) - 1 → dotClampI N v true = v) ∧
    (-32768 ≤ v → v ≤ 32767 → clampI16 v true = v) := by
  have hk : (0 : Int) < 2 ^ (N - 1) := by positivity
  have hd : dotClampI N v true
      = if v < -(2 ^ (N - 1) : Int) then -(2 ^ (N - 1))
        else if (2 ^ (N - 1) : Int) - 1 < v then 2 ^ (N - 1) - 1
        else v := rfl
  have hc : clampI16 v true
      = if v < -32768 then -32768 else if 32767 < v then 32767 else v := rfl
  refine ⟨rfl, rfl, ?_, ?_, ?_, ?_, ?_, ?_⟩
  · rw [hd]; split_ifs <;> omega
  · rw [hd]; split_ifs <;> omega
  · rw [hc]; split_ifs <;> omega
  · rw [hc]; split_ifs <;> omega
  · intro h1 h2; rw [hd]; split_ifs <;> omega
  · intro h1 h2; rw [hc]; split_ifs <;> omega

/-- Witness for `signed_clamp_spec` at `N = 16`, `v = 5`. -/
theorem signed_clamp_spec_witness :
    ((16 = 4 ∨ 16 = 8 ∨ 16 = 16) ∧ (-(2 ^ 31) ≤ (5 : Int) ∧ (5 : Int) < 2 ^ 31)) ∧
    dotClampI 16 5 false = 5 :=
  ⟨⟨by decide, by decide⟩, (signed_clamp_spec 16 (by decide) 5 (by decide)).1⟩

/-- C4: the `V_PK_ADD_I16` element operation on 32767 and 1 gives 32767 when
saturating (clamp to the int16 maximum) and -32768 when not saturating
(two's-complement wrap). -/
theorem pk_add_i16_saturate_example :
    V_PK_ADD_I16_opImpl 32767 1 true = 32767 ∧
    V_PK_ADD_I16_opImpl 32767 1 false = -32768 := by decide

/-- C5: the `V_PK_MUL_LO_U16` element operation returns the low 16 bits of
the 32-bit product of its uint16 inputs, ignores the saturation flag, and in
particular maps 0xFFFF, 0x0002 to 0xFFFE. -/
theorem pk_mul_lo_u16_spec (S0 S1 : Nat) (h0 : S0 < 2 ^ 16) (h1 : S1 < 2 ^ 16)
    (flag flag' : Bool) :
    V_PK_MUL_LO_U16_opImpl S0 S1 flag = S0 * S1 % 2 ^ 16 ∧
    V_PK_MUL_LO_U16_opImpl S0 S1 flag = V_PK_MUL_LO_U16_opImpl S0 S1 flag' ∧
    V_PK_MUL_LO_U16_opImpl 0xFFFF 0x0002 flag = 0xFFFE := by
  refine ⟨?_, rfl, rfl⟩
  unfold V_PK_MUL_LO_U16_opImpl
  exact Nat.mod_mod_of_dvd _ (by decide)

/-- Witness for `pk_mul_lo_u16_spec` at the inputs 0xFFFF and 0x0002. -/
theorem pk_mul_lo_u16_spec_witness :
    ((0xFFFF : Nat) < 2 ^ 16 ∧ (0x0002 : Nat) < 2 ^ 16) ∧
    V_PK_MUL_LO_U16_opImpl 0xFFFF 0x0002 true = 0xFFFF * 0x0002 % 2 ^ 16 :=
  ⟨⟨by decide, by decide⟩,
    (pk_mul_lo_u16_spec 0xFFFF 0x0002 (by decide) (by decide) true false).1⟩

/-- C6: `V_DOT4_I32_I8` on one lane with S0 packing the signed bytes
1, -1, 127, -128 (pattern 0x807FFF01), S1 packing 1, 1, 1, 1 (pattern
0x01010101), accumulator 0 and saturation on: the element products are
1, -1, 127, -128, each untouched by the int8 clamp, and the lane result is
-1 (pattern 0xFFFFFFFF). -/
theorem dot4_i32_i8_example :
    dotElemI 8 0x807FFF01 0x01010101 true 0 = 1 ∧
    dotElemI 8 0x807FFF01 0x01010101 true 1 = -1 ∧
    dotElemI 8 0x807FFF01 0x01010101 true 2 = 127 ∧
    dotElemI 8 0x807FFF01 0x01010101 true 3 = -128 ∧
    dotClampI 8 1 true = 1 ∧ dotClampI 8 (-1) true = -1 ∧
    dotClampI 8 127 true = 127 ∧ dotClampI 8 (-128) true = -128 ∧
    V_DOT4_I32_I8_opImpl 0x807FFF01 0x01010101 0 true = 0xFFFFFFFF := by decide

/-- C3: masking law — every instruction of this core executes through
`vop3pHelper`, `vop3pHelper3`, `dotHelper` or the ACCVGPR move loops; here
the element / lane operation is universally quantified (so the
floating-point instructions are covered as well), and a lane whose
execution-mask bit is false has identical destination register contents
before and after execution. -/
theorem inactive_lane_unchanged
    (op2 : Nat → Nat → Bool → Nat) (op3 opD : Nat → Nat → Nat → Bool → Nat)
    (clamp : Bool) (execMask : ExecMask) (s0 s1 s2 vdst : Lanes)
    (lane : Fin NumVecElemPerVecReg) (h : execMask lane = false) :
    vop3pHelper op2 clamp execMask s0 s1 vdst lane = vdst lane ∧
    vop3pHelper3 op3 clamp execMask s0 s1 s2 vdst lane = vdst lane ∧
    dotHelper opD clamp execMask s0 s1 s2 vdst lane = vdst lane ∧
    Inst_VOP3P__V_ACCVGPR_READ_execute execMask s0 vdst lane = vdst lane ∧
    Inst_VOP3P__V_ACCVGPR_WRITE_execute execMask s0 vdst lane = vdst lane := by
  simp [vop3pHelper, vop3pHelper3, dotHelper, Inst_VOP3P__V_ACCVGPR_READ_execute,
    Inst_VOP3P__V_ACCVGPR_WRITE_execute, h]

/-- Witness for `inactive_lane_unchanged` on an all-false mask at lane 0. -/
theorem inactive_lane_unchanged_witness :
    ((fun _ : Fin NumVecElemPerVecReg => false) (0 : Fin NumVecElemPerVecReg) = false) ∧
    vop3pHelper (fun a _ _ => a) true (fun _ => false)
      (fun _ => 1) (fun _ => 2) (fun _ => 5) (0 : Fin NumVecElemPerVecReg) = 5 :=
  ⟨rfl, (inactive_lane_unchanged (fun a _ _ => a) (fun a _ _ _ => a) (fun a _ _ _ => a)
      true (fun _ => false) (fun _ => 1) (fun _ => 2) (fun _ => 3) (fun _ => 5) 0 rfl).1⟩

/-- C7: per element, `V_PK_ASHRREV_B16` equals S1 sign-extended to 32 bits,
arithmetically shifted right (floor division by a power of two) by the
amount `bits(S0, 3, 0)` — a value in 0..15 — and truncated back to 16 bits;
the saturation flag has no effect. -/
theorem pk_ashrrev_b16_spec (S0 S1 : Int)
    (h0 : -32768 ≤ S0 ∧ S0 ≤ 32767) (h1 : -32768 ≤ S1 ∧ S1 ≤ 32767) (c c' : Bool) :
    V_PK_ASHRREV_B16_opImpl S0 S1 c
      = sextI 16 (Int.fdiv S1 (2 ^ bits (toUInt16 S0) 3 0)) ∧
    bits (toUInt16 S0) 3 0 ≤ 15 ∧
    V_PK_ASHRREV_B16_opImpl S0 S1 c = V_PK_ASHRREV_B16_opImpl S0 S1 c' := by
  refine ⟨rfl, ?_, rfl⟩
  unfold bits
  norm_num
  omega

/-- Witness for `pk_ashrrev_b16_spec` at S0 = 3 (shift by 3), S1 = -100. -/
theorem pk_ashrrev_b16_spec_witness :
    ((-32768 ≤ (3 : Int) ∧ (3 : Int) ≤ 32767) ∧
      (-32768 ≤ (-100 : Int) ∧ (-100 : Int) ≤ 32767)) ∧
    V_PK_ASHRREV_B16_opImpl 3 (-100) true
      = sextI 16 (Int.fdiv (-100) (2 ^ bits (toUInt16 3) 3 0)) :=
  ⟨⟨by decide, by decide⟩, (pk_ashrrev_b16_spec 3 (-100) (by decide) (by decide) true false).1⟩

/-- C8: in every integer dot-product instruction only the per-element
products are clamped — the lane result equals the plain (unclamped) sum of
the clamped element products, plus the accumulator operand added exactly
once, reduced by the native 32-bit arithmetic (int32 wrap-around for the
signed family, `% 2 ^ 32` for the unsigned family) to the 32-bit scalar
written to the lane. -/
theorem dot_accumulation_structure (S0r S1r S2r : Nat) (clamp : Bool) :
    V_DOT2_I32_I16_opImpl S0r S1r S2r clamp
      = toUInt32 (((List.range (32 / 16)).map (dotElemI 16 S0r S1r clamp)).sum + toInt32 S2r) ∧
    V_DOT4_I32_I8_opImpl S0r S1r S2r clamp
      = toUInt32 (((List.range (32 / 8)).map (dotElemI 8 S0r S1r clamp)).sum + toInt32 S2r) ∧
    V_DOT8_I32_I4_opImpl S0r S1r S2r clamp
      = toUInt32 (((List.range (32 / 4)).map (dotElemI 4 S0r S1r clamp)).sum + toInt32 S2r) ∧
    V_DOT2_U32_U16_opImpl S0r S1r S2r clamp
      = (((List.range (32 / 16)).map (dotElemU 16 S0r S1r clamp)).sum + S2r) % 2 ^ 32 ∧
    V_DOT4_U32_U8_opImpl S0r S1r S2r clamp
      = (((List.range (32 / 8)).map (dotElemU 8 S0r S1r clamp)).sum + S2r) % 2 ^ 32 ∧
    V_DOT8_U32_U4_opImpl S0r S1r S2r clamp
      = (((List.range (32 / 4)).map (dotElemU 4 S0r S1r clamp)).sum + S2r) % 2 ^ 32 := by
  refine ⟨?_, ?_, ?_, ?_, ?_, ?_⟩
  · unfold V_DOT2_I32_I16_opImpl
    rw [foldl_wrap32_add_zero, wrap32_add_left, toUInt32_wrap32]
  · unfold V_DOT4_I32_I8_opImpl
    rw [foldl_wrap32_add_zero, wrap32_add_left, toUInt32_wrap32]
  · unfold V_DOT8_I32_I4_opImpl
    rw [foldl_wrap32_add_zero, wrap32_add_left, toUInt32_wrap32]
  · unfold V_DOT2_U32_U16_opImpl
    rw [foldl_mod_add_zero, Nat.mod_add_mod]
  · unfold V_DOT4_U32_U8_opImpl
    rw [foldl_mod_add_zero, Nat.mod_add_mod]
  · unfold V_DOT8_U32_U4_opImpl
    rw [foldl_mod_add_zero, Nat.mod_add_mod]

/-- C9: in the signed dot families every value added into the running sum
lies in the element-width signed range — for all inputs and both saturation
flags — because each product is masked to its low bits and re-sign-extended
before summation; none of the three unsigned families applies such a
truncation when saturation is off (witnessed, in each of the 16-, 8- and
4-bit families, by an element product exceeding the element-width unsigned
maximum). -/
theorem dot_signed_elements_in_range (S0r S1r : Nat) (clamp : Bool) (i : Nat) :
    (-(2 ^ 15 : Int) ≤ dotElemI 16 S0r S1r clamp i ∧
      dotElemI 16 S0r S1r clamp i ≤ 2 ^ 15 - 1) ∧
    (-(2 ^ 7 : Int) ≤ dotElemI 8 S0r S1r clamp i ∧
      dotElemI 8 S0r S1r clamp i ≤ 2 ^ 7 - 1) ∧
    (-(2 ^ 3 : Int) ≤ dotElemI 4 S0r S1r clamp i ∧
      dotElemI 4 S0r S1r clamp i ≤ 2 ^ 3 - 1) ∧
    2 ^ 16 - 1 < dotElemU 16 0xFFFFFFFF 0xFFFFFFFF false 0 ∧
    2 ^ 8 - 1 < dotElemU 8 0xFFFFFFFF 0xFFFFFFFF false 0 ∧
    2 ^ 4 - 1 < dotElemU 4 0xFFFFFFFF 0xFFFFFFFF false 0 := by
  exact ⟨dotElemI_bounds 16 (by norm_num) S0r S1r clamp i,
    dotElemI_bounds 8 (by norm_num) S0r S1r clamp i,
    dotElemI_bounds 4 (by norm_num) S0r S1r clamp i,
    by decide, by decide, by decide⟩

/-- C10: `V_ACCVGPR_READ` and `V_ACCVGPR_WRITE` compute exactly the same
function, and for every mask, source and prior destination that function
copies the 32-bit source value on every active lane and leaves every
inactive lane untouched. -/
theorem accvgpr_read_write_equiv :
    Inst_VOP3P__V_ACCVGPR_READ_execute = Inst_VOP3P__V_ACCVGPR_WRITE_execute ∧
    ∀ (execMask : ExecMask) (src vdst : Lanes) (lane : Fin NumVecElemPerVecReg),
      Inst_VOP3P__V_ACCVGPR_READ_execute execMask src vdst lane
        = if execMask lane then src lane else vdst lane :=
  ⟨rfl, fun _ _ _ _ => rfl⟩

end VegaISA
